import Mathlib

/-!
Verification development for the ande-reth parallel EVM executor and the
ANDE token-duality precompile.

The definitions below are a shallow embedding of the Rust sources:

  crates/evolve/src/parallel/mv_memory.rs      (module-level MvMemory)
  crates/evolve/src/parallel/executor.rs       (executor-local MvMemory,
                                                ParallelExecutor, ParallelScheduler)
  crates/evolve/src/parallel/config.rs         (ParallelConfig)
  crates/evolve/src/evm_config/ande_precompile_provider.rs

Conventions of the embedding:
  * `U256` is `Nat` with explicit saturation at `2 ^ 256 - 1`; `u64`, `u128`,
    `i128` arithmetic is `Nat`/`Int` with the overflow behaviour of the source
    spelled out (`wrapI128` models the Rust `as i128` cast of a `u128`).
  * Rust `HashMap`s are association lists in insertion order; `insert`
    overwrites the entry with the same key, as `HashMap::insert` does.
  * Addresses are abstract (`Nat`); the ANDE precompile address constant
    `0x00..fd` is the numeric value of its 20 bytes, `0xfd`.
  * Fallible operations return `Except`/`Option`.
-/

/-- Addresses are modelled abstractly as naturals (big-endian value of the
20 bytes of an `alloy_primitives::Address`). -/
abbrev Address := Nat

/-- Largest `U256` value. -/
def U256MAX : Nat := 2 ^ 256 - 1

/-- Largest `u128` value. -/
def u128MAX : Nat := 2 ^ 128 - 1

/-- Largest `u64` value. -/
def u64MAX : Nat := 2 ^ 64 - 1

/-- Largest `i128` value, as an integer. -/
def i128MAX : Int := 2 ^ 127 - 1

/-- Smallest `i128` value, as an integer. -/
def i128MIN : Int := -(2 ^ 127)

/-- Rust `U256::saturating_add`. -/
def satAdd (a b : Nat) : Nat := min (a + b) U256MAX

/-- Rust `U256::saturating_sub` (on `Nat` this is truncated subtraction). -/
def satSub (a b : Nat) : Nat := a - b

/-- Rust `U256::saturating_mul`. -/
def satMul (a b : Nat) : Nat := min (a * b) U256MAX

/-- Rust `u64::saturating_add`. -/
def satAdd64 (a b : Nat) : Nat := min (a + b) u64MAX

/-- Rust cast `x as i128` applied to a `u128` value `n < 2 ^ 128`:
two's-complement reinterpretation, which WRAPS for `n > i128::MAX`. -/
def wrapI128 (n : Nat) : Int := if n < 2 ^ 127 then (n : Int) else (n : Int) - 2 ^ 128

/-- Rust `U256::try_into::<i128>().unwrap_or(i128::MAX)`: the conversion
succeeds iff the value fits in `i128`, otherwise `i128::MAX` is substituted. -/
def tryIntoI128OrMax (n : Nat) : Int := if (n : Int) ≤ i128MAX then (n : Int) else i128MAX

/-- Mathematical clamp of an integer into the signed 128-bit range.  This is a
SPEC-side definition (the words of the claims: "clamped to signed 128-bit"),
used to compare claimed behaviour against the source functions. -/
def clampI128 (z : Int) : Int := max i128MIN (min z i128MAX)

/-- State change for an account (`AccountStateChange` in executor.rs; the
`AccountChange` record of the spec).  `storage_changes` is an association
list standing for the `HashMap<U256, U256>`. -/
structure AccountStateChange where
  address : Address
  balance_change : Option Int
  nonce_change : Option Nat
  storage_changes : List (Nat × Nat)
deriving DecidableEq, Repr

/-- Lazy account state for deferred balance calculations
(`LazyAccountState` in mv_memory.rs / executor.rs). -/
structure LazyAccountState where
  base_balance : Nat
  base_nonce : Nat
  balance_additions : List (Nat × Nat)
  balance_subtractions : List (Nat × Nat)
  nonce_increments : List Nat
deriving DecidableEq, Repr

/-- Multi-version memory restricted to its `lazy_accounts` map, modelled as an
association list in insertion order.  The `data: HashMap<Address, Vec<MvMemoryEntry>>`
field of the source struct is never written or read by any operation involved
in the claims, so it is not carried here. -/
structure MvMemory where
  lazy_accounts : List (Address × LazyAccountState)
deriving DecidableEq, Repr

/-- Fresh `LazyAccountState` produced by the `or_insert_with` closures of
`add_lazy_balance_addition` / `_subtraction` / `add_lazy_nonce_increment`:
zero base balance and nonce, empty lists. -/
def emptyLazyState : LazyAccountState :=
  { base_balance := 0, base_nonce := 0, balance_additions := []
    balance_subtractions := [], nonce_increments := [] }

/-- Model of `HashMap::entry(address).or_insert_with(dflt)` followed by a
mutation `f` of the entry: if the key is present, apply `f` to its value,
otherwise insert `f dflt`. -/
def updateLazy (m : List (Address × LazyAccountState)) (a : Address)
    (dflt : LazyAccountState) (f : LazyAccountState → LazyAccountState) :
    List (Address × LazyAccountState) :=
  match m with
  | [] => [(a, f dflt)]
  | (b, st) :: rest =>
      if b = a then (b, f st) :: rest else (b, st) :: updateLazy rest a dflt f

/-- Lookup in the lazy-account map. -/
def lazyLookup (m : List (Address × LazyAccountState)) (a : Address) :
    Option LazyAccountState :=
  match m with
  | [] => none
  | (b, st) :: rest => if b = a then some st else lazyLookup rest a

/-- MvMemory::add_lazy_balance_addition (identical in mv_memory.rs and
executor.rs): `entry(address).or_insert_with(empty).balance_additions.push((tx_idx, amount))`. -/
def add_lazy_balance_addition (m : MvMemory) (address : Address) (amount : Nat)
    (tx_idx : Nat) : MvMemory :=
  { lazy_accounts := updateLazy m.lazy_accounts address emptyLazyState
      (fun st => { st with balance_additions := st.balance_additions ++ [(tx_idx, amount)] }) }

/-- MvMemory::add_lazy_balance_subtraction. -/
def add_lazy_balance_subtraction (m : MvMemory) (address : Address) (amount : Nat)
    (tx_idx : Nat) : MvMemory :=
  { lazy_accounts := updateLazy m.lazy_accounts address emptyLazyState
      (fun st => { st with balance_subtractions := st.balance_subtractions ++ [(tx_idx, amount)] }) }

/-- MvMemory::add_lazy_nonce_increment. -/
def add_lazy_nonce_increment (m : MvMemory) (address : Address) (tx_idx : Nat) :
    MvMemory :=
  { lazy_accounts := updateLazy m.lazy_accounts address emptyLazyState
      (fun st => { st with nonce_increments := st.nonce_increments ++ [tx_idx] }) }

/-- MvMemory::set_base_account_state: `or_insert_with` a state seeded with the
given balance/nonce, then (re)assign `base_balance` and `base_nonce`.  The
lazy lists of an existing entry are preserved. -/
def set_base_account_state (m : MvMemory) (address : Address) (balance : Nat)
    (nonce : Nat) : MvMemory :=
  { lazy_accounts := updateLazy m.lazy_accounts address
      { base_balance := balance, base_nonce := nonce, balance_additions := []
        balance_subtractions := [], nonce_increments := [] }
      (fun st => { st with base_balance := balance, base_nonce := nonce }) }

/-- MvMemory::evaluate_lazy_balances as written in mv_memory.rs (lines 117-160):
fold `saturating_add` over the additions and `saturating_sub` over the
subtractions starting from the base balance; `balance_change` is the U256
`final_balance.saturating_sub(base_balance)` (hence never negative), mapped to
`i128` by substituting `i128::MAX` when it exceeds `u128::MAX` and otherwise
casting `to::<u128>() as i128` (which wraps above `i128::MAX`). -/
def evaluate_lazy_balances_mv (m : MvMemory) : List AccountStateChange :=
  m.lazy_accounts.map (fun p =>
    let lazy_state := p.2
    let fb1 := lazy_state.balance_additions.foldl (fun acc q => satAdd acc q.2)
      lazy_state.base_balance
    let final_balance := lazy_state.balance_subtractions.foldl
      (fun acc q => satSub acc q.2) fb1
    let final_nonce := lazy_state.base_nonce + lazy_state.nonce_increments.length
    let balance_change := satSub final_balance lazy_state.base_balance
    let balance_change_i128 : Int :=
      if balance_change > u128MAX then i128MAX else wrapI128 balance_change
    { address := p.1
      balance_change := some balance_change_i128
      nonce_change :=
        if final_nonce ≠ lazy_state.base_nonce then some final_nonce else none
      storage_changes := [] })

/-- MvMemory::evaluate_lazy_balances as written in executor.rs (lines 226-285):
total the additions and the subtractions separately (saturating), compare, and
emit the signed difference, saturating to `i128::MAX` for a net addition above
`i128::MAX` and to `i128::MIN` for a net subtraction above `i128::MAX`. -/
def evaluate_lazy_balances_exec (m : MvMemory) : List AccountStateChange :=
  m.lazy_accounts.map (fun p =>
    let lazy_state := p.2
    let total_additions : Nat := lazy_state.balance_additions.foldl
      (fun acc q => satAdd acc q.2) 0
    let total_subtractions : Nat := lazy_state.balance_subtractions.foldl
      (fun acc q => satAdd acc q.2) 0
    let final_nonce := lazy_state.base_nonce + lazy_state.nonce_increments.length
    let balance_change : Int :=
      if total_subtractions ≤ total_additions then
        (let delta := total_additions - total_subtractions
         if delta ≤ (2 ^ 127 - 1 : Nat) then (delta : Int) else i128MAX)
      else
        (let delta := total_subtractions - total_additions
         if delta ≤ (2 ^ 127 - 1 : Nat) then -(delta : Int) else i128MIN)
    { address := p.1
      balance_change := some balance_change
      nonce_change :=
        if final_nonce ≠ lazy_state.base_nonce then some final_nonce else none
      storage_changes := [] })

/-- Spec-side definition, written from the words of claim C2: the balance
change "equals (final_balance - base_balance) clamped to signed 128-bit,
where final_balance = base_balance plus the sum of additions minus the sum of
subtractions under saturating arithmetic". -/
def c2ClaimedBalanceChange (st : LazyAccountState) : Int :=
  let finalBalance := satSub (satAdd st.base_balance
    ((st.balance_additions.map Prod.snd).sum)) ((st.balance_subtractions.map Prod.snd).sum)
  clampI128 ((finalBalance : Int) - (st.base_balance : Int))

/-- Sum of the amounts of a lazy addition/subtraction list. -/
def sumAmounts (l : List (Nat × Nat)) : Nat := (l.map Prod.snd).sum

/-- Amended description of the balance change emitted by the mv_memory.rs
evaluator: `final_balance - base_balance` computed with U256 saturating
subtraction (so zero, never negative, when subtractions dominate), then sent
to `i128` by substituting `i128::MAX` above `u128::MAX` and reinterpreting the
low 128 bits (two's-complement, wrapping) otherwise. -/
def mvAmendedBalanceChange (st : LazyAccountState) : Int :=
  let finalBalance :=
    min (st.base_balance + sumAmounts st.balance_additions) U256MAX -
      sumAmounts st.balance_subtractions
  let bc := finalBalance - st.base_balance
  if bc > u128MAX then i128MAX else wrapI128 bc

/-- Amended per-account state change emitted by the mv_memory.rs evaluator. -/
def mvAmendedChange (a : Address) (st : LazyAccountState) : AccountStateChange :=
  { address := a
    balance_change := some (mvAmendedBalanceChange st)
    nonce_change :=
      if st.base_nonce + st.nonce_increments.length ≠ st.base_nonce then
        some (st.base_nonce + st.nonce_increments.length)
      else none
    storage_changes := [] }

/-- Well-formedness of the base balances of a lazy map: every base balance is
a representable U256 value (guaranteed by the `U256` type in the source). -/
def mvBasesWF (m : MvMemory) : Bool :=
  m.lazy_accounts.all (fun p => p.2.base_balance ≤ U256MAX)

/-- Transaction version (`TxVersion` in executor.rs). -/
structure TxVersion where
  tx_idx : Nat
  tx_incarnation : Nat
deriving DecidableEq, Repr

/-- Execution status of a transaction (`TxStatus` in executor.rs). -/
inductive TxStatus where
  | Ready
  | Executing
  | Completed
  | Failed
  | Blocked (idx : Nat)
deriving DecidableEq, Repr

/-- Configuration for parallel execution (`ParallelConfig` in config.rs);
`concurrency_level` is the value of the `NonZeroUsize`. -/
structure ParallelConfig where
  concurrency_level : Nat
  enable_lazy_updates : Bool
  max_retries : Nat
  min_transactions_for_parallel : Nat
  force_sequential : Bool
  enable_advanced_dependency_analysis : Bool
  max_dependency_depth : Nat
  enable_monitoring : Bool
deriving DecidableEq, Repr

/-- The `Default` impl of `ParallelConfig`. -/
def defaultParallelConfig : ParallelConfig :=
  { concurrency_level := 8, enable_lazy_updates := true, max_retries := 3
    min_transactions_for_parallel := 4, force_sequential := false
    enable_advanced_dependency_analysis := false, max_dependency_depth := 10
    enable_monitoring := true }

/-- One item of an EIP-2930 access list: an address and its storage keys. -/
structure AccessListItem where
  address : Address
  storage_keys : List Nat
deriving DecidableEq, Repr

/-- Abstraction of a `TransactionSigned` with exactly the observations the
executor makes of it: `signer` is the (deterministic) outcome of
`recover_signer()` (`none` models recovery failure), `to` is
`transaction.to()` (`none` for contract creation), `value`, `gas_limit`,
`max_fee_per_gas`, the calldata bytes, and the access list. -/
structure Tx where
  signer : Option Address
  «to» : Option Address
  value : Nat
  gas_limit : Nat
  max_fee_per_gas : Nat
  input : List Nat
  access_list : List AccessListItem
deriving DecidableEq, Repr

/-- Error messages carried by a failed `ParallelExecutionResult`; the source
uses `String`s, modelled structurally. -/
inductive ExecError where
  | recoverSignerFailed
  | intrinsicGasTooLow
  | noExecutionResult
  | executionReturnedNone
deriving DecidableEq, Repr

/-- Result of parallel transaction execution (`ParallelExecutionResult`).
`state_changes` is an association list for the `HashMap<Address, AccountStateChange>`. -/
structure ParallelExecutionResult where
  tx_idx : Nat
  gas_used : Nat
  success : Bool
  error : Option ExecError
  state_changes : List (Address × AccountStateChange)
  read_set : List Address
  write_set : List Address
  incarnation : Nat
deriving DecidableEq, Repr

/-- ANDE Token Duality precompile address `0x00..fd`: 19 zero bytes followed
by `0xfd`, i.e. the numeric value 253. -/
def ANDE_PRECOMPILE_ADDRESS : Address := 0xfd

/-- ParallelExecutor::is_ande_precompile_call. -/
def is_ande_precompile_call (address : Address) : Bool :=
  address = ANDE_PRECOMPILE_ADDRESS

/-- ParallelExecutor::calculate_intrinsic_gas: base 21000, +4 per zero byte
and +16 per non-zero byte of calldata (saturating u64 adds), +32000 for
contract creation, +2400 per access-list address and +1900 per storage key. -/
def calculate_intrinsic_gas (tx : Tx) : Nat :=
  let gas : Nat := 21000
  let gas := tx.input.foldl
    (fun g byte => if byte = 0 then satAdd64 g 4 else satAdd64 g 16) gas
  let gas := if tx.«to» = none then satAdd64 gas 32000 else gas
  tx.access_list.foldl
    (fun g item => satAdd64 (satAdd64 g 2400) (1900 * item.storage_keys.length)) gas

/-- Insert into the `state_changes` map (`HashMap::insert`: overwrite the
entry with the same key, keep its position; append otherwise). -/
def insertStateChange (l : List (Address × AccountStateChange)) (a : Address)
    (c : AccountStateChange) : List (Address × AccountStateChange) :=
  match l with
  | [] => [(a, c)]
  | (b, old) :: rest =>
      if b = a then (b, c) :: rest else (b, old) :: insertStateChange rest a c

/-- ParallelExecutor::execute_transaction_parallel (executor.rs lines 625-786).
Besides the `ParallelExecutionResult` (the source always returns `Some`), the
function's only effect on the shared `MvMemory` is an optional
`add_lazy_balance_addition`; that effect is returned as the second component
so callers can apply it to their memory. -/
def execute_transaction_parallel (config : ParallelConfig) (tx_version : TxVersion)
    (transaction : Tx) : ParallelExecutionResult × Option (Address × Nat) :=
  match transaction.signer with
  | none =>
      ({ tx_idx := tx_version.tx_idx, gas_used := 0, success := false
         error := some ExecError.recoverSignerFailed, state_changes := []
         read_set := [], write_set := [], incarnation := tx_version.tx_incarnation },
       none)
  | some sender =>
      let intrinsic_gas := calculate_intrinsic_gas transaction
      if transaction.gas_limit < intrinsic_gas then
        ({ tx_idx := tx_version.tx_idx, gas_used := 0, success := false
           error := some ExecError.intrinsicGasTooLow, state_changes := []
           read_set := [], write_set := [], incarnation := tx_version.tx_incarnation },
         none)
      else
        let gas_cost := satMul transaction.gas_limit transaction.max_fee_per_gas
        let state_changes := insertStateChange [] sender
          { address := sender, balance_change := some (-(tryIntoI128OrMax gas_cost))
            nonce_change := some 1, storage_changes := [] }
        let lazyAndChanges :
            Option (Address × Nat) × List (Address × AccountStateChange) :=
          match transaction.«to» with
          | some toAddr =>
              if transaction.value ≠ 0 then
                if config.enable_lazy_updates && is_ande_precompile_call toAddr then
                  (some (toAddr, transaction.value), state_changes)
                else
                  (none, insertStateChange state_changes toAddr
                    { address := toAddr
                      balance_change := some (tryIntoI128OrMax transaction.value)
                      nonce_change := none, storage_changes := [] })
              else (none, state_changes)
          | none => (none, state_changes)
        let read_set : List Address := [sender]
        let write_set : List Address := [sender]
        let readAndWrite : List Address × List Address :=
          match transaction.«to» with
          | some toAddr =>
              if transaction.value ≠ 0 then
                ((if read_set.contains toAddr then read_set else read_set ++ [toAddr]),
                 (if write_set.contains toAddr then write_set else write_set ++ [toAddr]))
              else (read_set, write_set)
          | none => (read_set, write_set)
        ({ tx_idx := tx_version.tx_idx, gas_used := intrinsic_gas, success := true
           error := none, state_changes := lazyAndChanges.2
           read_set := readAndWrite.1, write_set := readAndWrite.2
           incarnation := tx_version.tx_incarnation },
         lazyAndChanges.1)

/-- Transaction dependency information (`TxDependency`). -/
structure TxDependency where
  depends_on : List Nat
  dependents : List Nat
  read_accounts : List Address
  write_accounts : List Address
deriving DecidableEq, Repr

/-- Error of ParallelExecutor::analyze_dependencies: signer recovery failed
for the given transaction index. -/
inductive AnalyzeError where
  | recoverFailed (idx : Nat)
deriving DecidableEq, Repr

/-- ParallelExecutor::analyze_dependencies: recover each signer (erroring out
on failure); transactions with the same signer are linked, earlier indices
into `depends_on`, later ones into `dependents`; `read_accounts` and
`write_accounts` are the singleton signer. -/
def analyze_dependencies (transactions : List Tx) :
    Except AnalyzeError (List TxDependency) :=
  transactions.enum.mapM (fun p =>
    match (p.2).signer with
    | none => Except.error (AnalyzeError.recoverFailed p.1)
    | some sender =>
        Except.ok
          { depends_on := transactions.enum.filterMap (fun q =>
              if p.1 ≠ q.1 ∧ (q.2).signer = some sender ∧ q.1 < p.1 then some q.1
              else none)
            dependents := transactions.enum.filterMap (fun q =>
              if p.1 ≠ q.1 ∧ (q.2).signer = some sender ∧ ¬ q.1 < p.1 then some q.1
              else none)
            read_accounts := [sender]
            write_accounts := [sender] })

/-- ParallelExecutor::should_use_parallel. -/
def should_use_parallel (config : ParallelConfig) (transactions : List Tx) : Bool :=
  if config.force_sequential then false
  else if transactions.length < config.min_transactions_for_parallel then false
  else true

/-- Apply the optional lazy-addition side effect of a transaction execution
to an `MvMemory` (this is what the `mv_memory.lock()` block of
execute_transaction_parallel does for the ANDE precompile path). -/
def applyLazyOp (m : MvMemory) (op : Option (Address × Nat)) (tx_idx : Nat) :
    MvMemory :=
  match op with
  | none => m
  | some (a, v) => add_lazy_balance_addition m a v tx_idx

/-- ParallelExecutor::execute_sequential (executor.rs lines 470-559), reduced
to its data: execute each transaction in index order at incarnation 0 with a
fresh `MvMemory`, collecting results and lazy updates.  Returns the result
vector together with the memory that `evaluate_lazy_balances` is then run on. -/
def execute_sequential (config : ParallelConfig) (transactions : List Tx) :
    List ParallelExecutionResult × MvMemory :=
  transactions.enum.foldl
    (fun acc p =>
      let tx_version : TxVersion := { tx_idx := p.1, tx_incarnation := 0 }
      let r := execute_transaction_parallel config tx_version p.2
      (acc.1 ++ [r.1], applyLazyOp acc.2 r.2 p.1))
    ([], { lazy_accounts := [] })

/-- Synthesized failed result pushed by the result-collection loop of
execute_transactions when `results[i]` is `None` (executor.rs lines 411-423). -/
def noResultFallback (i : Nat) : ParallelExecutionResult :=
  { tx_idx := i, gas_used := 0, success := false
    error := some ExecError.noExecutionResult, state_changes := []
    read_set := [], write_set := [], incarnation := 0 }

/-- Result collection of ParallelExecutor::execute_transactions (lines
404-425): every slot yields its stored result, a missing slot yields the
synthesized failure for its index. -/
def collect_results (slots : List (Option ParallelExecutionResult)) :
    List ParallelExecutionResult :=
  slots.enum.map (fun p =>
    match p.2 with
    | some r => r
    | none => noResultFallback p.1)

/-- Decidable form of the slot invariant maintained by the worker loop: a
stored result sits in the slot of its own transaction index (workers write
`results_guard[tx_version.tx_idx] = Some(result)` where the result was built
with `tx_idx: tx_version.tx_idx`). -/
def slotsWellIndexed (slots : List (Option ParallelExecutionResult)) : Bool :=
  slots.enum.all (fun p =>
    match p.2 with
    | some r => r.tx_idx = p.1
    | none => true)

/-- Default dependency record used for out-of-range lookups (never reached on
well-formed inputs, where every index is in range). -/
def dummyDependency : TxDependency :=
  { depends_on := [], dependents := [], read_accounts := [], write_accounts := [] }

/-- ParallelScheduler::detect_conflicts (executor.rs lines 1066-1115).  The
first loop walks every earlier index `j < tx_idx`; a stored result whose
`write_set` meets this transaction's `read_set` with a strictly greater
incarnation returns `true`.  The second loop of the source (over later
indices) only emits a debug log for "potential forward conflicts" and can
never return `true`; it computes nothing and is therefore not carried here
(see `forward_advisory_conflicts` for its condition). -/
def detect_conflicts (execution_results : List (Option ParallelExecutionResult))
    (tx_idx : Nat) (result : ParallelExecutionResult) : Bool :=
  (List.range tx_idx).any (fun earlier_idx =>
    match execution_results.getD earlier_idx none with
    | some earlier_result =>
        result.read_set.any (fun read_addr =>
          earlier_result.write_set.contains read_addr &&
            decide (earlier_result.incarnation > result.incarnation))
    | none => false)

/-- Condition logged (and ignored) by the forward loop of detect_conflicts:
a later transaction with a stored result wrote something this transaction
read, at a lower-or-equal incarnation. -/
def forward_advisory_conflicts (execution_results : List (Option ParallelExecutionResult))
    (tx_idx : Nat) (result : ParallelExecutionResult) : List Nat :=
  ((List.range execution_results.length).filter (fun later_idx =>
    decide (later_idx > tx_idx) &&
      match execution_results.getD later_idx none with
      | some later_result =>
          result.read_set.any (fun read_addr =>
            later_result.write_set.contains read_addr &&
              decide (later_result.incarnation ≤ result.incarnation))
      | none => false))

/-- State owned by a `ParallelScheduler` (executor.rs lines 833-850): per-tx
status and retry counters, the two task queues (front of the list = front of
the `VecDeque`), and the shared result vector. -/
structure SchedState where
  tx_status : List TxStatus
  retry_counts : List Nat
  execution_queue : List TxVersion
  validation_queue : List TxVersion
  execution_results : List (Option ParallelExecutionResult)
deriving DecidableEq, Repr

/-- ParallelScheduler::initialize_execution_queue: enqueue `(i, 0)` for every
transaction whose `depends_on` is empty. -/
def init_execution_queue (dependencies : List TxDependency) : List TxVersion :=
  dependencies.enum.filterMap (fun p =>
    if (p.2).depends_on = [] then some { tx_idx := p.1, tx_incarnation := 0 }
    else none)

/-- Fresh scheduler state built by ParallelScheduler::new for `block_size`
transactions. -/
def schedulerNew (block_size : Nat) (dependencies : List TxDependency) : SchedState :=
  { tx_status := List.replicate block_size TxStatus.Ready
    retry_counts := List.replicate block_size 0
    execution_queue := init_execution_queue dependencies
    validation_queue := []
    execution_results := List.replicate block_size none }

/-- ParallelScheduler::store_result. -/
def store_result (s : SchedState) (result : ParallelExecutionResult) : SchedState :=
  { s with execution_results := s.execution_results.set result.tx_idx (some result) }

/-- ParallelScheduler::schedule_validation. -/
def schedule_validation (s : SchedState) (tx_version : TxVersion) : SchedState :=
  { s with validation_queue := s.validation_queue ++ [tx_version] }

/-- ParallelScheduler::unblock_dependents (executor.rs lines 1118-1140): for
each dependent of `tx_idx`, if all of its `depends_on` are `Completed` and it
is still `Ready`, push `(dependent, 0)` onto the execution queue.  Statuses
are never modified. -/
def unblock_dependents (dependencies : List TxDependency) (s : SchedState)
    (tx_idx : Nat) : SchedState :=
  (dependencies.getD tx_idx dummyDependency).dependents.foldl
    (fun acc dependent_idx =>
      let all_deps_completed :=
        (dependencies.getD dependent_idx dummyDependency).depends_on.all
          (fun dep_idx => acc.tx_status.getD dep_idx TxStatus.Ready = TxStatus.Completed)
      let is_ready := acc.tx_status.getD dependent_idx TxStatus.Ready = TxStatus.Ready
      if all_deps_completed ∧ is_ready then
        { acc with execution_queue :=
            acc.execution_queue ++ [{ tx_idx := dependent_idx, tx_incarnation := 0 }] }
      else acc)
    s

/-- ParallelScheduler::finish_validation (executor.rs lines 974-1050): fetch
the stored result (return unchanged when missing), run conflict detection; on
conflict either schedule a retry at the next incarnation (retry counter below
`max_retries`) or mark the transaction `Failed`; on no conflict mark it
`Completed` and unblock dependents.  The current status of the transaction is
never consulted. -/
def finish_validation (config : ParallelConfig) (dependencies : List TxDependency)
    (s : SchedState) (tx_version : TxVersion) : SchedState :=
  let tx_idx := tx_version.tx_idx
  match s.execution_results.getD tx_idx none with
  | none => s
  | some result =>
      if detect_conflicts s.execution_results tx_idx result then
        let retry_count := s.retry_counts.getD tx_idx 0
        if retry_count < config.max_retries then
          { s with
              retry_counts := s.retry_counts.set tx_idx (retry_count + 1)
              execution_queue := s.execution_queue ++
                [{ tx_idx := tx_idx, tx_incarnation := tx_version.tx_incarnation + 1 }]
              tx_status := s.tx_status.set tx_idx TxStatus.Ready }
        else
          { s with tx_status := s.tx_status.set tx_idx TxStatus.Failed }
      else
        unblock_dependents dependencies
          { s with tx_status := s.tx_status.set tx_idx TxStatus.Completed } tx_idx

/-- Dependents of `tx_idx` that unblock_dependents re-enqueues from state `s`:
those whose dependencies are all `Completed` and whose own status is `Ready`. -/
def readyDependents (dependencies : List TxDependency) (s : SchedState)
    (tx_idx : Nat) : List TxVersion :=
  ((dependencies.getD tx_idx dummyDependency).dependents.filter
    (fun dependent_idx =>
      decide ((dependencies.getD dependent_idx dummyDependency).depends_on.all
        (fun dep_idx => s.tx_status.getD dep_idx TxStatus.Ready = TxStatus.Completed) ∧
        s.tx_status.getD dependent_idx TxStatus.Ready = TxStatus.Ready))).map
    (fun dependent_idx => { tx_idx := dependent_idx, tx_incarnation := 0 })

/-- Pending atomic action of a worker thread in the interleaving model of the
parallel driver (executor.rs lines 348-402).  Granularity follows the lock
regions of the source: `execBody` is the body of an `Execute` task (the
per-transaction routine plus its four short lock regions, run without holding
any lock across them - coalescing them only removes interleavings, every
trace of this model is realizable by the source); `valBegin` is
finish_validation up to and including the status write, after which the
per-dependent unblock checks (`unblock d`) each take the dependent's status
lock separately, exactly as unblock_dependents does. -/
inductive WAction where
  | execBody (v : TxVersion)
  | valBegin (v : TxVersion)
  | unblock (w : TxVersion) (d : Nat)
deriving DecidableEq, Repr

/-- Global state of the parallel execution driver: the scheduler state, the
executor's own `results` vector, the shared `MvMemory`, and each worker's
queue of pending atomic actions (an idle worker has `[]` and will pull a task
on its next step). -/
structure Machine where
  sched : SchedState
  results : List (Option ParallelExecutionResult)
  mv : MvMemory
  workers : List (List WAction)
deriving DecidableEq, Repr

/-- Initial machine state: fresh scheduler (ready queue seeded from the
dependency analysis), empty result slots, empty memory, `concurrency_level`
idle workers. -/
def machineInit (config : ParallelConfig) (transactions : List Tx)
    (dependencies : List TxDependency) : Machine :=
  { sched := schedulerNew transactions.length dependencies
    results := List.replicate transactions.length none
    mv := { lazy_accounts := [] }
    workers := List.replicate config.concurrency_level [] }

/-- One atomic step of worker `w`.  An idle worker performs
ParallelScheduler::next_task (validation queue first); a worker with a
pending action performs it.  `none` means worker `w` cannot step (it is idle
and both queues are empty: in the source its loop exits). -/
def machineStep (config : ParallelConfig) (transactions : List Tx)
    (dependencies : List TxDependency) (m : Machine) (w : Nat) : Option Machine :=
  match m.workers.getD w [] with
  | [] =>
      match m.sched.validation_queue with
      | v :: rest =>
          some { m with
            sched := { m.sched with validation_queue := rest }
            workers := m.workers.set w [WAction.valBegin v] }
      | [] =>
          match m.sched.execution_queue with
          | v :: rest =>
              some { m with
                sched := { m.sched with execution_queue := rest }
                workers := m.workers.set w [WAction.execBody v] }
          | [] => none
  | act :: restActs =>
      match act with
      | WAction.execBody v =>
          let tx := transactions.getD v.tx_idx
            { signer := none, «to» := none, value := 0, gas_limit := 0
              max_fee_per_gas := 0, input := [], access_list := [] }
          let r := execute_transaction_parallel config v tx
          some { m with
            sched := schedule_validation (store_result m.sched r.1) v
            results := m.results.set v.tx_idx (some r.1)
            mv := applyLazyOp m.mv r.2 v.tx_idx
            workers := m.workers.set w restActs }
      | WAction.valBegin v =>
          match m.sched.execution_results.getD v.tx_idx none with
          | none => some { m with workers := m.workers.set w restActs }
          | some result =>
              if detect_conflicts m.sched.execution_results v.tx_idx result then
                let retry_count := m.sched.retry_counts.getD v.tx_idx 0
                if retry_count < config.max_retries then
                  some { m with
                    sched := { m.sched with
                      retry_counts := m.sched.retry_counts.set v.tx_idx (retry_count + 1)
                      execution_queue := m.sched.execution_queue ++
                        [{ tx_idx := v.tx_idx, tx_incarnation := v.tx_incarnation + 1 }]
                      tx_status := m.sched.tx_status.set v.tx_idx TxStatus.Ready }
                    workers := m.workers.set w restActs }
                else
                  some { m with
                    sched := { m.sched with
                      tx_status := m.sched.tx_status.set v.tx_idx TxStatus.Failed }
                    workers := m.workers.set w restActs }
              else
                some { m with
                  sched := { m.sched with
                    tx_status := m.sched.tx_status.set v.tx_idx TxStatus.Completed }
                  workers := m.workers.set w
                    (((dependencies.getD v.tx_idx dummyDependency).dependents.map
                      (fun d => WAction.unblock v d)) ++ restActs) }
      | WAction.unblock _ d =>
          let all_deps_completed :=
            (dependencies.getD d dummyDependency).depends_on.all
              (fun dep_idx =>
                m.sched.tx_status.getD dep_idx TxStatus.Ready = TxStatus.Completed)
          let is_ready := m.sched.tx_status.getD d TxStatus.Ready = TxStatus.Ready
          if all_deps_completed ∧ is_ready then
            some { m with
              sched := { m.sched with execution_queue :=
                m.sched.execution_queue ++ [{ tx_idx := d, tx_incarnation := 0 }] }
              workers := m.workers.set w restActs }
          else some { m with workers := m.workers.set w restActs }

/-- Run a schedule: a list of worker indices, each performing one atomic step. -/
def machineRun (config : ParallelConfig) (transactions : List Tx)
    (dependencies : List TxDependency) (m : Machine) : List Nat → Option Machine
  | [] => some m
  | w :: ws =>
      match machineStep config transactions dependencies m w with
      | some m' => machineRun config transactions dependencies m' ws
      | none => none

/-- Machine quiescence: both queues empty and every worker idle.  At this
point every worker's `next_task()` returns `None`, all workers exit, and the
driver proceeds to collect results and evaluate lazy balances. -/
def machineQuiescent (m : Machine) : Bool :=
  m.sched.validation_queue = [] ∧ m.sched.execution_queue = [] ∧
    m.workers.all (fun acts => acts = [])

/-- Base gas of the ANDE precompile (`ANDE_PRECOMPILE_BASE_GAS`). -/
def ANDE_PRECOMPILE_BASE_GAS : Nat := 3000

/-- Per-word gas of the ANDE precompile (`ANDE_PRECOMPILE_PER_WORD_GAS`). -/
def ANDE_PRECOMPILE_PER_WORD_GAS : Nat := 100

/-- Address of the ANDEToken contract authorized to call the precompile
(`ANDE_TOKEN_ADDRESS`); the source constant is `Address::ZERO`, which
disables the caller check. -/
def ANDE_TOKEN_ADDRESS : Address := 0

/-- Interpreter gas record (revm `Gas`): created with `Gas::new(limit)`
holding `limit` remaining. -/
structure Gas where
  limit : Nat
  remaining : Nat
deriving DecidableEq, Repr

/-- Construct a `Gas` as `Gas::new`. -/
def Gas.new (limit : Nat) : Gas := { limit := limit, remaining := limit }

/-- Gas::record_cost: subtract if enough gas remains; the returned flag is
ignored by the precompile. -/
def Gas.record_cost (g : Gas) (cost : Nat) : Gas × Bool :=
  if cost ≤ g.remaining then ({ g with remaining := g.remaining - cost }, true)
  else (g, false)

/-- Instruction results used by the precompile (only `Return`). -/
inductive InstructionResult where
  | Return
deriving DecidableEq, Repr

/-- Interpreter result returned by a successful precompile run; `output` is
the returned byte list. -/
structure InterpreterResult where
  result : InstructionResult
  gas : Gas
  output : List Nat
deriving DecidableEq, Repr

/-- Errors of run_ande_precompile; the source returns `String`s, modelled
structurally in source order. -/
inductive AndeError where
  | staticContext
  | invalidInputLength (len : Nat)
  | outOfGas
  | unauthorizedCaller (caller : Address)
  | transferToZero
  | transferFailed (e : Nat)
  | databaseError (e : Nat)
deriving DecidableEq, Repr

/-- Big-endian byte-list to natural conversion (`Address::from_slice` /
`U256::from_be_slice`). -/
def beBytesToNat (l : List Nat) : Nat := l.foldl (fun acc b => acc * 256 + b) 0

/-- Sender parsed from bytes 12..32 of the 96-byte input. -/
def parsedFrom (input : List Nat) : Address := beBytesToNat ((input.drop 12).take 20)

/-- Recipient parsed from bytes 44..64 of the 96-byte input. -/
def parsedTo (input : List Nat) : Address := beBytesToNat ((input.drop 44).take 20)

/-- Value parsed big-endian from bytes 64..96 of the 96-byte input. -/
def parsedValue (input : List Nat) : Nat := beBytesToNat ((input.drop 64).take 32)

/-- AndePrecompileProvider::run_ande_precompile (ande_precompile_provider.rs
lines 94-202).  The journal is abstract: a state of type `J` together with a
`transfer` function modelling `JournalTr::transfer(from, to, value)`, whose
`Except Nat (Option Nat)` outcome mirrors
`Result<Option<TransferError>, DatabaseError>`.  The function returns the
interpreter outcome and the journal state after the call; every early-exit
path leaves the journal untouched. -/
def run_ande_precompile {J : Type}
    (transfer : Address → Address → Nat → J → Except Nat (Option Nat) × J)
    (caller : Address) (input : List Nat) (is_static : Bool) (gas_limit : Nat)
    (journal : J) : Except AndeError (Option InterpreterResult) × J :=
  if is_static then (Except.error AndeError.staticContext, journal)
  else if input.length ≠ 96 then
    (Except.error (AndeError.invalidInputLength input.length), journal)
  else
    let fromA := parsedFrom input
    let toA := parsedTo input
    let value := parsedValue input
    let gas_cost := ANDE_PRECOMPILE_BASE_GAS + ANDE_PRECOMPILE_PER_WORD_GAS * 3
    if gas_limit < gas_cost then (Except.error AndeError.outOfGas, journal)
    else if ANDE_TOKEN_ADDRESS ≠ 0 ∧ caller ≠ ANDE_TOKEN_ADDRESS then
      (Except.error (AndeError.unauthorizedCaller caller), journal)
    else if toA = 0 then (Except.error AndeError.transferToZero, journal)
    else if value = 0 then
      (Except.ok (some
        { result := InstructionResult.Return
          gas := ((Gas.new gas_limit).record_cost gas_cost).1
          output := [0x01] }), journal)
    else
      match transfer fromA toA value journal with
      | (Except.ok none, journal') =>
          (Except.ok (some
            { result := InstructionResult.Return
              gas := ((Gas.new gas_limit).record_cost gas_cost).1
              output := [0x01] }), journal')
      | (Except.ok (some transfer_err), journal') =>
          (Except.error (AndeError.transferFailed transfer_err), journal')
      | (Except.error db_err, journal') =>
          (Except.error (AndeError.databaseError db_err), journal')

/-- Simple transfer transaction for the C1 scenario: known signer, call to a
plain account, value 0, exactly the 21000 intrinsic gas. -/
def plainTx (signer : Address) : Tx :=
  { signer := some signer, «to» := some 99, value := 0, gas_limit := 21000
    max_fee_per_gas := 0, input := [], access_list := [] }

/-- Value transfer to the ANDE duality precompile used in the C1 scenario. -/
def andeTransferTx (signer : Address) (value : Nat) : Tx :=
  { signer := some signer, «to» := some ANDE_PRECOMPILE_ADDRESS, value := value
    gas_limit := 21000, max_fee_per_gas := 0, input := [], access_list := [] }

/-- Block of four transactions meeting `min_transactions_for_parallel = 4`:
transactions 0..2 share signer 1 (so the analyzer chains them), transaction 2
sends value 5 to the ANDE precompile (a lazy-update transaction), and
transaction 3 has an independent signer 2. -/
def c1Txs : List Tx :=
  [plainTx 1, plainTx 1, andeTransferTx 1 5, plainTx 2]

/-- Dependency records the analyzer produces for `c1Txs`. -/
def c1Deps : List TxDependency :=
  [ { depends_on := [], dependents := [1, 2], read_accounts := [1], write_accounts := [1] }
  , { depends_on := [0], dependents := [2], read_accounts := [1], write_accounts := [1] }
  , { depends_on := [0, 1], dependents := [], read_accounts := [1], write_accounts := [1] }
  , { depends_on := [], dependents := [], read_accounts := [2], write_accounts := [2] } ]

/-- Interleaving of two workers (0 and 1) that makes both of them pass the
check-then-enqueue window of unblock_dependents for transaction 2: worker 0
completes the validation of transaction 0 and unblocks dependent 1, then is
paused holding its remaining `unblock 2` action while worker 1 executes and
validates transactions 3 and 1; worker 1's unblock of transaction 2 enqueues
it, after which worker 0's resumed unblock still sees transaction 2 `Ready`
and enqueues it a second time; both workers then execute transaction 2. -/
def c1Trace : List Nat :=
  [0, 0, 0, 0, 0, 1, 1, 1, 1, 1, 1, 1, 1, 1, 0, 0, 1, 0, 1, 0, 0, 1, 1]

/-- Final machine state of the C1 interleaving. -/
def c1FinalMachine : Option Machine :=
  machineRun defaultParallelConfig c1Txs c1Deps
    (machineInit defaultParallelConfig c1Txs c1Deps) c1Trace

/-- Lazy account map of the C2 counterexample: base balance 1000, nonce 0,
and a single lazy subtraction of 100 from transaction 0 - the state after
`set_base_account_state(7, 1000, 0)` and `add_lazy_balance_subtraction(7, 100, 0)`. -/
def c2CounterMv : MvMemory :=
  add_lazy_balance_subtraction
    (set_base_account_state { lazy_accounts := [] } 7 1000 0) 7 100 0

/-- Lazy state held at address 7 of `c2CounterMv`. -/
def c2CounterState : LazyAccountState :=
  { base_balance := 1000, base_nonce := 0, balance_additions := []
    balance_subtractions := [(0, 100)], nonce_increments := [] }

/-- Lazy account with base 0 and a single addition of `u128::MAX`
(= 2 ^ 128 - 1): its net sum exceeds `i128::MAX`, the saturation boundary of
claim C3. -/
def c3CounterMv : MvMemory :=
  { lazy_accounts := [(7,
      { base_balance := 0, base_nonce := 0
        balance_additions := [(0, 2 ^ 128 - 1)], balance_subtractions := []
        nonce_increments := [] })] }

/-- Lazy account whose subtractions outweigh its additions by `2 ^ 128`,
a net signed sum below `i128::MIN`. -/
def c3CounterMvNeg : MvMemory :=
  { lazy_accounts := [(7,
      { base_balance := 0, base_nonce := 0
        balance_additions := [], balance_subtractions := [(0, 2 ^ 128)]
        nonce_increments := [] })] }

/-- Dependencies of the C9 counterexample: transaction 1 depends on
transaction 0. -/
def c9Deps : List TxDependency :=
  [ { depends_on := [], dependents := [1], read_accounts := [1], write_accounts := [1] }
  , { depends_on := [0], dependents := [], read_accounts := [1], write_accounts := [1] } ]

/-- Stored result of transaction 0 in the C9 counterexample. -/
def c9Result0 : ParallelExecutionResult :=
  { tx_idx := 0, gas_used := 21000, success := true, error := none
    state_changes := [], read_set := [1], write_set := [1], incarnation := 0 }

/-- Stored result of transaction 1 in the C9 counterexample. -/
def c9Result1 : ParallelExecutionResult :=
  { tx_idx := 1, gas_used := 21000, success := true, error := none
    state_changes := [], read_set := [1], write_set := [1], incarnation := 0 }

/-- Scheduler state of the C9 counterexample: transaction 0 already
`Completed` (its validation has already run once), transaction 1 executed
(result stored) but still `Ready`, both queues empty. -/
def c9State : SchedState :=
  { tx_status := [TxStatus.Completed, TxStatus.Ready]
    retry_counts := [0, 0]
    execution_queue := []
    validation_queue := []
    execution_results := [some c9Result0, some c9Result1] }

theorem sumAmounts_cons (q : Nat × Nat) (l : List (Nat × Nat)) :
    sumAmounts (q :: l) = q.2 + sumAmounts l := by
  simp [sumAmounts]

theorem foldl_satAdd_amounts (l : List (Nat × Nat)) :
    ∀ b : Nat, b ≤ U256MAX →
      l.foldl (fun acc q => satAdd acc q.2) b = min (b + sumAmounts l) U256MAX := by
  induction l with
  | nil =>
      intro b hb
      simp [sumAmounts]
      omega
  | cons q l ih =>
      intro b hb
      rw [List.foldl_cons, ih (satAdd b q.2) (by simp only [satAdd]; omega),
        sumAmounts_cons]
      simp [satAdd]
      omega

theorem foldl_satSub_amounts (l : List (Nat × Nat)) :
    ∀ b : Nat, l.foldl (fun acc q => satSub acc q.2) b = b - sumAmounts l := by
  induction l with
  | nil => intro b; simp [sumAmounts]
  | cons q l ih =>
      intro b
      rw [List.foldl_cons, ih, sumAmounts_cons]
      simp [satSub]
      omega

theorem lazyLookup_updateLazy (m : List (Address × LazyAccountState)) (a : Address)
    (dflt : LazyAccountState) (f : LazyAccountState → LazyAccountState) :
    lazyLookup (updateLazy m a dflt f) a = some (f ((lazyLookup m a).getD dflt)) := by
  induction m with
  | nil => simp [updateLazy, lazyLookup]
  | cons p m ih =>
      obtain ⟨b, st⟩ := p
      by_cases hb : b = a
      · simp [updateLazy, lazyLookup, hb]
      · simp [updateLazy, lazyLookup, hb, ih]

theorem updateLazy_twice (m : List (Address × LazyAccountState)) (a : Address)
    (d d' : LazyAccountState) (f g : LazyAccountState → LazyAccountState) :
    updateLazy (updateLazy m a d f) a d' g = updateLazy m a d (fun st => g (f st)) := by
  induction m with
  | nil => simp [updateLazy]
  | cons p m ih =>
      obtain ⟨b, st⟩ := p
      by_cases hb : b = a
      · simp [updateLazy, hb]
      · simp [updateLazy, hb, ih]

theorem set_get?_self {α : Type} (l : List α) (i : Nat) (x : α)
    (h : l[i]? = some x) : l.set i x = l := by
  induction l generalizing i with
  | nil => simp at h
  | cons y l ih =>
      cases i with
      | zero =>
          simp at h
          simp [List.set, h]
      | succ i =>
          simp at h
          simp [List.set, ih i h]

theorem unblock_fold_aux (deps : List TxDependency) :
    ∀ (dl : List Nat) (s : SchedState),
      dl.foldl
        (fun acc dependent_idx =>
          let all_deps_completed :=
            (deps.getD dependent_idx dummyDependency).depends_on.all
              (fun dep_idx =>
                acc.tx_status.getD dep_idx TxStatus.Ready = TxStatus.Completed)
          let is_ready := acc.tx_status.getD dependent_idx TxStatus.Ready = TxStatus.Ready
          if all_deps_completed ∧ is_ready then
            { acc with execution_queue :=
                acc.execution_queue ++ [{ tx_idx := dependent_idx, tx_incarnation := 0 }] }
          else acc) s =
      { s with execution_queue := s.execution_queue ++
          ((dl.filter (fun dependent_idx =>
            decide ((deps.getD dependent_idx dummyDependency).depends_on.all
              (fun dep_idx =>
                s.tx_status.getD dep_idx TxStatus.Ready = TxStatus.Completed) ∧
              s.tx_status.getD dependent_idx TxStatus.Ready = TxStatus.Ready))).map
            (fun dependent_idx => { tx_idx := dependent_idx, tx_incarnation := 0 })) } := by
  intro dl
  induction dl with
  | nil => intro s; cases s; simp
  | cons d dl ih =>
      intro s
      rw [List.foldl_cons, List.filter_cons]
      by_cases hc :
          ((deps.getD d dummyDependency).depends_on.all
            (fun dep_idx =>
              s.tx_status.getD dep_idx TxStatus.Ready = TxStatus.Completed) = true) ∧
            s.tx_status.getD d TxStatus.Ready = TxStatus.Ready
      · simp only []
        rw [if_pos hc, if_pos (decide_eq_true hc), ih]
        simp [List.append_assoc]
      · simp only []
        rw [if_neg hc, if_neg (fun h => hc (of_decide_eq_true h)), ih]

theorem unblock_dependents_spec (deps : List TxDependency) (s : SchedState) (i : Nat) :
    unblock_dependents deps s i =
      { s with execution_queue := s.execution_queue ++ readyDependents deps s i } := by
  unfold unblock_dependents readyDependents
  rw [unblock_fold_aux]

theorem execute_sequential_foldl_aux (config : ParallelConfig) :
    ∀ (l : List (Nat × Tx)) (acc : List ParallelExecutionResult × MvMemory),
      (l.foldl
        (fun acc p =>
          let tx_version : TxVersion := { tx_idx := p.1, tx_incarnation := 0 }
          let r := execute_transaction_parallel config tx_version p.2
          (acc.1 ++ [r.1], applyLazyOp acc.2 r.2 p.1)) acc).1 =
      acc.1 ++ l.map (fun p =>
        (execute_transaction_parallel config { tx_idx := p.1, tx_incarnation := 0 } p.2).1) := by
  intro l
  induction l with
  | nil => intro acc; simp
  | cons p l ih =>
      intro acc
      rw [List.foldl_cons, ih]
      simp

theorem execute_sequential_fst (config : ParallelConfig) (txs : List Tx) :
    (execute_sequential config txs).1 = txs.enum.map (fun p =>
      (execute_transaction_parallel config { tx_idx := p.1, tx_incarnation := 0 } p.2).1) := by
  unfold execute_sequential
  rw [execute_sequential_foldl_aux]
  simp

theorem execute_transaction_parallel_tx_idx (config : ParallelConfig)
    (v : TxVersion) (tx : Tx) :
    (execute_transaction_parallel config v tx).1.tx_idx = v.tx_idx := by
  cases h : tx.signer with
  | none => simp [execute_transaction_parallel, h]
  | some sender =>
      simp only [execute_transaction_parallel, h]
      split <;> simp

/-- C4: ParallelScheduler::detect_conflicts reports a conflict for
transaction `tx_idx` if and only if some earlier transaction `j < tx_idx` has
a stored result whose write set intersects this transaction's read set and
whose incarnation is strictly greater; in particular no later transaction
`j > tx_idx` ever causes a conflict report (the source's forward loop only
logs and cannot return `true`). -/
theorem detect_conflicts_iff
    (execution_results : List (Option ParallelExecutionResult)) (tx_idx : Nat)
    (result : ParallelExecutionResult) :
    detect_conflicts execution_results tx_idx result = true ↔
      ∃ j, j < tx_idx ∧ ∃ earlier, execution_results.getD j none = some earlier ∧
        (∃ a, a ∈ result.read_set ∧ a ∈ earlier.write_set) ∧
        earlier.incarnation > result.incarnation := by
  unfold detect_conflicts
  rw [List.any_eq_true]
  constructor
  · rintro ⟨j, hj, hpred⟩
    rw [List.mem_range] at hj
    refine ⟨j, hj, ?_⟩
    cases h : execution_results.getD j none with
    | none => rw [h] at hpred; simp at hpred
    | some earlier =>
        rw [h] at hpred
        rw [List.any_eq_true] at hpred
        obtain ⟨a, ha, hcond⟩ := hpred
        rw [Bool.and_eq_true] at hcond
        refine ⟨earlier, rfl, ⟨a, ha, ?_⟩, of_decide_eq_true hcond.2⟩
        have := hcond.1
        simpa [List.contains] using this
  · rintro ⟨j, hj, earlier, hres, ⟨a, har, haw⟩, hinc⟩
    refine ⟨j, List.mem_range.mpr hj, ?_⟩
    rw [hres, List.any_eq_true]
    refine ⟨a, har, ?_⟩
    rw [Bool.and_eq_true]
    exact ⟨by simpa [List.contains] using haw, decide_eq_true hinc⟩

set_option maxRecDepth 8192 in
/-- C1 (code_bug): sequential equivalence fails on a reachable interleaving.
On the four-transaction block `c1Txs` (which qualifies for parallel mode
under the default configuration), the two-worker schedule `c1Trace` drives
the parallel driver to quiescence with the same per-transaction results as
the sequential path, but `unblock_dependents` enqueues transaction 2 twice
(both workers pass its check-then-enqueue window), the transaction executes
twice, its lazy ANDE-precompile addition is recorded twice, and
evaluate_lazy_balances emits a balance change of +10 for the precompile
address where the sequential path emits +5. -/
theorem c1_parallel_sequential_divergence :
    should_use_parallel defaultParallelConfig c1Txs = true ∧
    analyze_dependencies c1Txs = Except.ok c1Deps ∧
    Option.map (fun m => (machineQuiescent m, collect_results m.results,
        evaluate_lazy_balances_exec m.mv)) c1FinalMachine =
      some (true, (execute_sequential defaultParallelConfig c1Txs).1,
        [{ address := ANDE_PRECOMPILE_ADDRESS, balance_change := some 10,
           nonce_change := none, storage_changes := [] }]) ∧
    evaluate_lazy_balances_exec (execute_sequential defaultParallelConfig c1Txs).2 =
      [{ address := ANDE_PRECOMPILE_ADDRESS, balance_change := some 5,
         nonce_change := none, storage_changes := [] }] ∧
    ([{ address := ANDE_PRECOMPILE_ADDRESS, balance_change := some 10,
        nonce_change := none, storage_changes := [] }] : List AccountStateChange) ≠
      [{ address := ANDE_PRECOMPILE_ADDRESS, balance_change := some 5,
         nonce_change := none, storage_changes := [] }] := by
  exact ⟨by decide, rfl, by decide, by decide, by decide⟩

set_option maxRecDepth 8192 in
/-- C3 (code_bug): the emitted balance change is not the claimed saturation
to plus-or-minus `i128::MAX`.  The mv_memory.rs evaluator maps a net sum of
`u128::MAX` (outside the signed 128-bit range) to `-1`, a wrapped two's-
complement value, and any net-negative sum to `0`; the executor.rs evaluator
saturates a large negative sum to `i128::MIN`, not `-i128::MAX`. -/
theorem c3_saturation_wraps :
    evaluate_lazy_balances_mv c3CounterMv =
      [{ address := 7, balance_change := some (-1), nonce_change := none
         storage_changes := [] }] ∧
    evaluate_lazy_balances_exec c3CounterMv =
      [{ address := 7, balance_change := some i128MAX, nonce_change := none
         storage_changes := [] }] ∧
    evaluate_lazy_balances_mv c3CounterMvNeg =
      [{ address := 7, balance_change := some 0, nonce_change := none
         storage_changes := [] }] ∧
    evaluate_lazy_balances_exec c3CounterMvNeg =
      [{ address := 7, balance_change := some i128MIN, nonce_change := none
         storage_changes := [] }] ∧
    (-1 : Int) ≠ i128MAX ∧ (-1 : Int) ≠ -i128MAX ∧
    (0 : Int) ≠ -i128MAX ∧ i128MIN ≠ -i128MAX := by
  refine ⟨by decide, by decide, by decide, by decide, by decide, by decide, by decide, by decide⟩

/-- C2 (amended): the mv_memory.rs evaluate_lazy_balances emits exactly one
AccountStateChange per lazy account; its balance change equals
`final_balance - base_balance` computed with U256 saturating subtraction -
so it is zero, never negative, when subtractions exceed additions - where
`final_balance = min(base + sum of additions, U256::MAX) - sum of subtractions`
(truncated at zero), and the U256 difference is sent to `i128` by
substituting `i128::MAX` above `u128::MAX` and otherwise reinterpreting the
value two's-complement (wrapping between `i128::MAX` and `u128::MAX`);
`nonce_change` is set exactly when the final nonce differs from the base. -/
theorem evaluate_lazy_balances_mv_characterization (m : MvMemory)
    (h : mvBasesWF m = true) :
    evaluate_lazy_balances_mv m =
      m.lazy_accounts.map (fun p => mvAmendedChange p.1 p.2) := by
  unfold evaluate_lazy_balances_mv
  apply List.map_congr_left
  intro p hp
  have hb : p.2.base_balance ≤ U256MAX := by
    unfold mvBasesWF at h
    rw [List.all_eq_true] at h
    exact of_decide_eq_true (h p hp)
  simp only [mvAmendedChange, mvAmendedBalanceChange]
  rw [foldl_satAdd_amounts _ _ hb, foldl_satSub_amounts]
  simp [satSub]

set_option maxRecDepth 8192 in
/-- Witness for the C2 amended theorem at the counterexample state. -/
theorem evaluate_lazy_balances_mv_characterization_witness :
    mvBasesWF c2CounterMv = true ∧
    evaluate_lazy_balances_mv c2CounterMv =
      c2CounterMv.lazy_accounts.map (fun p => mvAmendedChange p.1 p.2) :=
  ⟨by decide, evaluate_lazy_balances_mv_characterization c2CounterMv (by decide)⟩

set_option maxRecDepth 8192 in
/-- C2 (counterexample): on the lazy account with base balance 1000 and a
single subtraction of 100, the claim predicts a balance change of
`clamp((900 - 1000)) = -100` (negative, since subtractions exceed
additions), but the mv_memory.rs evaluator emits `some 0`: the U256
`saturating_sub` floors the difference at zero. -/
theorem c2_balance_change_not_signed :
    lazyLookup c2CounterMv.lazy_accounts 7 = some c2CounterState ∧
    c2ClaimedBalanceChange c2CounterState = -100 ∧
    evaluate_lazy_balances_mv c2CounterMv =
      [{ address := 7, balance_change := some 0, nonce_change := none
         storage_changes := [] }] ∧
    (some (0 : Int)) ≠ some (-100 : Int) := by
  exact ⟨by decide, by decide, by decide, by decide⟩

/-- C8 (amended): set_base_account_state is idempotent, but the three
list-appending operations are not: a second identical invocation appends a
second `(tx_idx, amount)` (resp. `tx_idx`) entry, so the lists may hold
several entries per tx_idx, the duplicate entry contributes twice to
evaluation, and the doubled state differs from the single one. -/
theorem lazy_ops_append_set_base_idempotent (m : MvMemory) (a : Address)
    (amt i b n : Nat) :
    (lazyLookup (add_lazy_balance_addition (add_lazy_balance_addition m a amt i)
        a amt i).lazy_accounts a).map LazyAccountState.balance_additions =
      some (((lazyLookup m.lazy_accounts a).getD emptyLazyState).balance_additions
        ++ [(i, amt), (i, amt)]) ∧
    (lazyLookup (add_lazy_balance_subtraction (add_lazy_balance_subtraction m a amt i)
        a amt i).lazy_accounts a).map LazyAccountState.balance_subtractions =
      some (((lazyLookup m.lazy_accounts a).getD emptyLazyState).balance_subtractions
        ++ [(i, amt), (i, amt)]) ∧
    (lazyLookup (add_lazy_nonce_increment (add_lazy_nonce_increment m a i)
        a i).lazy_accounts a).map LazyAccountState.nonce_increments =
      some (((lazyLookup m.lazy_accounts a).getD emptyLazyState).nonce_increments
        ++ [i, i]) ∧
    add_lazy_balance_addition (add_lazy_balance_addition m a amt i) a amt i ≠
      add_lazy_balance_addition m a amt i ∧
    set_base_account_state (set_base_account_state m a b n) a b n =
      set_base_account_state m a b n := by
  refine ⟨?_, ?_, ?_, ?_, ?_⟩
  · simp [add_lazy_balance_addition, lazyLookup_updateLazy]
  · simp [add_lazy_balance_subtraction, lazyLookup_updateLazy]
  · simp [add_lazy_nonce_increment, lazyLookup_updateLazy]
  · intro h
    have h1 := congrArg (fun mm : MvMemory =>
      (lazyLookup mm.lazy_accounts a).map
        (fun st => st.balance_additions.length)) h
    simp [add_lazy_balance_addition, lazyLookup_updateLazy] at h1
  · unfold set_base_account_state
    rw [updateLazy_twice]

/-- C8 (counterexample): two identical add_lazy_balance_addition calls leave
two entries for tx_idx 0 in the additions list, not one, and the resulting
memory differs from a single call, contradicting idempotence. -/
theorem c8_double_addition_not_idempotent :
    add_lazy_balance_addition (add_lazy_balance_addition
        { lazy_accounts := [] } 5 10 0) 5 10 0 ≠
      add_lazy_balance_addition { lazy_accounts := [] } 5 10 0 ∧
    (add_lazy_balance_addition (add_lazy_balance_addition
        { lazy_accounts := [] } 5 10 0) 5 10 0).lazy_accounts =
      [(5, { base_balance := 0, base_nonce := 0
             balance_additions := [(0, 10), (0, 10)]
             balance_subtractions := [], nonce_increments := [] })] := by
  exact ⟨by decide, by decide⟩

/-- C9 (amended): finish_validation never consults the transaction's current
status.  Repeated on an already-Completed transaction whose stored result
shows no conflict, it leaves every status, every retry counter and the
validation queue unchanged but appends `(d, 0)` to the execution queue for
every dependent `d` whose dependencies are all Completed and whose own status
is Ready - it is a no-op only when no such dependent exists. -/
theorem finish_validation_on_completed (config : ParallelConfig)
    (deps : List TxDependency) (s : SchedState) (v : TxVersion)
    (r : ParallelExecutionResult)
    (hst : s.tx_status[v.tx_idx]? = some TxStatus.Completed)
    (hres : s.execution_results.getD v.tx_idx none = some r)
    (hnc : detect_conflicts s.execution_results v.tx_idx r = false) :
    finish_validation config deps s v =
      { s with execution_queue :=
          s.execution_queue ++ readyDependents deps s v.tx_idx } := by
  unfold finish_validation
  simp only [hres, hnc, Bool.false_eq_true, if_false]
  rw [set_get?_self _ _ _ hst, unblock_dependents_spec]

/-- Witness for the C9 amended theorem: the concrete scheduler state
`c9State` satisfies the hypotheses and re-enqueues dependent 1. -/
theorem finish_validation_on_completed_witness :
    (c9State.tx_status[0]? = some TxStatus.Completed ∧
      c9State.execution_results.getD 0 none = some c9Result0 ∧
      detect_conflicts c9State.execution_results 0 c9Result0 = false) ∧
    finish_validation defaultParallelConfig c9Deps c9State
        { tx_idx := 0, tx_incarnation := 0 } =
      { c9State with execution_queue :=
          c9State.execution_queue ++ readyDependents c9Deps c9State 0 } :=
  ⟨⟨by decide, by decide, by decide⟩,
    finish_validation_on_completed defaultParallelConfig c9Deps c9State
      { tx_idx := 0, tx_incarnation := 0 } c9Result0
      (by decide) (by decide) (by decide)⟩

/-- C9 (counterexample): repeating finish_validation on the already-Completed
transaction 0 of `c9State` is not a no-op: it enqueues its Ready dependent 1
onto the (previously empty) execution queue. -/
theorem c9_repeat_finish_validation_enqueues :
    c9State.tx_status[0]? = some TxStatus.Completed ∧
    finish_validation defaultParallelConfig c9Deps c9State
        { tx_idx := 0, tx_incarnation := 0 } ≠ c9State ∧
    (finish_validation defaultParallelConfig c9Deps c9State
        { tx_idx := 0, tx_incarnation := 0 }).execution_queue =
      [{ tx_idx := 1, tx_incarnation := 0 }] ∧
    c9State.execution_queue = [] := by
  exact ⟨by decide, by decide, by decide, by decide⟩

/-- C10: the per-transaction routine stamps its own index on every result;
the sequential path returns exactly one result per transaction in index
order with `result[i].tx_idx = i`; and the parallel result collection, fed
slots whose stored results carry their own slot index (the invariant
maintained by the worker loop, which stores each result at its
`tx_version.tx_idx`), returns one result per slot in index order with
`result[i].tx_idx = i`, synthesizing the failed placeholder wherever a slot
is empty. -/
theorem results_one_per_tx_in_order :
    (∀ (config : ParallelConfig) (v : TxVersion) (tx : Tx),
      (execute_transaction_parallel config v tx).1.tx_idx = v.tx_idx) ∧
    (∀ (config : ParallelConfig) (txs : List Tx),
      (execute_sequential config txs).1.length = txs.length ∧
      ∀ (i : Nat) (r : ParallelExecutionResult),
        ((execute_sequential config txs).1[i]? = some r → r.tx_idx = i)) ∧
    (∀ slots : List (Option ParallelExecutionResult),
      slotsWellIndexed slots = true →
        (collect_results slots).length = slots.length ∧
        (∀ (i : Nat) (r : ParallelExecutionResult),
          (collect_results slots)[i]? = some r → r.tx_idx = i) ∧
        (∀ i : Nat, slots[i]? = some none →
          (collect_results slots)[i]? = some (noResultFallback i))) := by
  refine ⟨execute_transaction_parallel_tx_idx, ?_, ?_⟩
  · intro config txs
    rw [execute_sequential_fst]
    constructor
    · simp [List.enum_length]
    · intro i r h
      rw [List.getElem?_map, List.getElem?_enum] at h
      cases htx : txs[i]? with
      | none => rw [htx] at h; simp at h
      | some tx =>
          rw [htx] at h
          simp only [Option.map_some'] at h
          have h' := Option.some.inj h
          rw [← h']
          exact execute_transaction_parallel_tx_idx config _ tx
  · intro slots hwf
    refine ⟨?_, ?_, ?_⟩
    · simp [collect_results, List.enum_length]
    · intro i r h
      unfold collect_results at h
      rw [List.getElem?_map, List.getElem?_enum] at h
      cases hsl : slots[i]? with
      | none => rw [hsl] at h; simp at h
      | some o =>
          rw [hsl] at h
          simp only [Option.map_some'] at h
          have h' := Option.some.inj h
          cases o with
          | none => rw [← h']; rfl
          | some r' =>
              have hmem : (i, some r') ∈ slots.enum := by
                apply List.get?_mem
                rw [List.get?_eq_getElem?, List.getElem?_enum, hsl]
                rfl
              unfold slotsWellIndexed at hwf
              rw [List.all_eq_true] at hwf
              have := hwf _ hmem
              simp only [decide_eq_true_eq] at this
              rw [← h']
              exact this
    · intro i h
      unfold collect_results
      rw [List.getElem?_map, List.getElem?_enum, h]
      rfl

/-- Witness for C10 at a concrete slot vector with one stored result and one
empty slot. -/
theorem results_one_per_tx_in_order_witness :
    slotsWellIndexed [some c9Result0, none] = true ∧
    ((collect_results [some c9Result0, none]).length =
        ([some c9Result0, none] : List (Option ParallelExecutionResult)).length ∧
      (∀ (i : Nat) (r : ParallelExecutionResult),
        (collect_results [some c9Result0, none])[i]? = some r → r.tx_idx = i) ∧
      (∀ i : Nat,
        ([some c9Result0, none] : List (Option ParallelExecutionResult))[i]? = some none →
          (collect_results [some c9Result0, none])[i]? = some (noResultFallback i))) :=
  ⟨by decide, results_one_per_tx_in_order.2.2 [some c9Result0, none] (by decide)⟩

/-- C5: once the token-duality precompile reaches the transfer step
(non-static context, 96-byte input, gas limit at least the fixed cost,
non-zero recipient, non-zero value), its outcome mirrors
`journal.transfer(from, to, value)`: `Ok(None)` yields success with output
exactly `0x01` and the full fixed cost charged, `Ok(Some(err))` yields the
transfer-failed error, `Err(db)` yields the database error; in each case the
journal state is the one produced by the transfer call. -/
theorem run_ande_precompile_transfer_outcomes {J : Type}
    (transfer : Address → Address → Nat → J → Except Nat (Option Nat) × J)
    (caller : Address) (input : List Nat) (gas_limit : Nat) (journal : J)
    (hlen : input.length = 96)
    (hgas : ANDE_PRECOMPILE_BASE_GAS + ANDE_PRECOMPILE_PER_WORD_GAS * 3 ≤ gas_limit)
    (hto : parsedTo input ≠ 0)
    (hval : parsedValue input ≠ 0) :
    (∀ j' : J,
      transfer (parsedFrom input) (parsedTo input) (parsedValue input) journal =
          (Except.ok none, j') →
        run_ande_precompile transfer caller input false gas_limit journal =
          (Except.ok (some
            { result := InstructionResult.Return,
              gas := { limit := gas_limit,
                       remaining := gas_limit - (ANDE_PRECOMPILE_BASE_GAS + ANDE_PRECOMPILE_PER_WORD_GAS * 3) },
              output := [0x01] }), j')) ∧
    (∀ (e : Nat) (j' : J),
      transfer (parsedFrom input) (parsedTo input) (parsedValue input) journal =
          (Except.ok (some e), j') →
        run_ande_precompile transfer caller input false gas_limit journal =
          (Except.error (AndeError.transferFailed e), j')) ∧
    (∀ (e : Nat) (j' : J),
      transfer (parsedFrom input) (parsedTo input) (parsedValue input) journal =
          (Except.error e, j') →
        run_ande_precompile transfer caller input false gas_limit journal =
          (Except.error (AndeError.databaseError e), j')) := by
  have hgas' : ¬ gas_limit <
      ANDE_PRECOMPILE_BASE_GAS + ANDE_PRECOMPILE_PER_WORD_GAS * 3 := by omega
  refine ⟨?_, ?_, ?_⟩
  · intro j' htr
    unfold run_ande_precompile
    simp only [Bool.false_eq_true, if_false, hlen, ne_eq, not_true_eq_false,
      ANDE_TOKEN_ADDRESS, not_false_eq_true, hgas', hto, hval, htr,
      Gas.new, Gas.record_cost]
    simp [hgas]
  · intro e j' htr
    unfold run_ande_precompile
    simp only [Bool.false_eq_true, if_false, hlen, ne_eq, not_true_eq_false,
      ANDE_TOKEN_ADDRESS, not_false_eq_true, hgas', hto, hval, htr]
    simp
  · intro e j' htr
    unfold run_ande_precompile
    simp only [Bool.false_eq_true, if_false, hlen, ne_eq, not_true_eq_false,
      ANDE_TOKEN_ADDRESS, not_false_eq_true, hgas', hto, hval, htr]
    simp

/-- Input of the C5 witness: 96 bytes, recipient word ending in 1, value
word ending in 1. -/
def c5Input : List Nat :=
  List.replicate 63 0 ++ [1] ++ List.replicate 31 0 ++ [1]

/-- Witness for C5: a transfer succeeding with `Ok(None)` on a unit journal
produces the single `0x01` byte with 3300 gas charged out of 5000. -/
theorem run_ande_precompile_transfer_outcomes_witness :
    (c5Input.length = 96 ∧
      ANDE_PRECOMPILE_BASE_GAS + ANDE_PRECOMPILE_PER_WORD_GAS * 3 ≤ 5000 ∧
      parsedTo c5Input ≠ 0 ∧ parsedValue c5Input ≠ 0) ∧
    run_ande_precompile (fun _ _ _ (j : Unit) => (Except.ok none, j))
        9 c5Input false 5000 () =
      (Except.ok (some
        { result := InstructionResult.Return,
          gas := { limit := 5000,
                   remaining := 5000 - (ANDE_PRECOMPILE_BASE_GAS + ANDE_PRECOMPILE_PER_WORD_GAS * 3) },
          output := [0x01] }), ()) :=
  ⟨⟨by decide, by decide, by decide, by decide⟩,
    (run_ande_precompile_transfer_outcomes
      (fun _ _ _ (j : Unit) => (Except.ok none, j)) 9 c5Input 5000 ()
      (by decide) (by decide) (by decide) (by decide)).1 () rfl⟩

/-- C6: a 96-byte, non-static, sufficiently funded call with non-zero
recipient and value zero succeeds with output exactly `0x01`, charges the
full fixed cost, and never invokes `journal.transfer`: the outcome holds for
every transfer function and returns the journal unchanged. -/
theorem run_ande_precompile_zero_value {J : Type}
    (transfer : Address → Address → Nat → J → Except Nat (Option Nat) × J)
    (caller : Address) (input : List Nat) (gas_limit : Nat) (journal : J)
    (hlen : input.length = 96)
    (hgas : ANDE_PRECOMPILE_BASE_GAS + ANDE_PRECOMPILE_PER_WORD_GAS * 3 ≤ gas_limit)
    (hto : parsedTo input ≠ 0)
    (hval : parsedValue input = 0) :
    run_ande_precompile transfer caller input false gas_limit journal =
      (Except.ok (some
        { result := InstructionResult.Return,
          gas := { limit := gas_limit,
                   remaining := gas_limit - (ANDE_PRECOMPILE_BASE_GAS + ANDE_PRECOMPILE_PER_WORD_GAS * 3) },
          output := [0x01] }), journal) := by
  have hgas' : ¬ gas_limit <
      ANDE_PRECOMPILE_BASE_GAS + ANDE_PRECOMPILE_PER_WORD_GAS * 3 := by omega
  unfold run_ande_precompile
  simp only [Bool.false_eq_true, if_false, hlen, ne_eq, not_true_eq_false,
    ANDE_TOKEN_ADDRESS, not_false_eq_true, hgas', hto, hval,
    Gas.new, Gas.record_cost]
  simp [hgas]

/-- Input of the C6 witness: recipient word ends in 1, value word all zero. -/
def c6Input : List Nat :=
  List.replicate 63 0 ++ [1] ++ List.replicate 32 0

/-- Witness for C6 on a counting journal (`J = Nat`): even with a transfer
function that increments the journal on every call, the zero-value call
leaves the journal at 0 and succeeds with `0x01`. -/
theorem run_ande_precompile_zero_value_witness :
    (c6Input.length = 96 ∧
      ANDE_PRECOMPILE_BASE_GAS + ANDE_PRECOMPILE_PER_WORD_GAS * 3 ≤ 4000 ∧
      parsedTo c6Input ≠ 0 ∧ parsedValue c6Input = 0) ∧
    run_ande_precompile (fun _ _ _ (j : Nat) => (Except.ok none, j + 1))
        9 c6Input false 4000 0 =
      (Except.ok (some
        { result := InstructionResult.Return,
          gas := { limit := 4000,
                   remaining := 4000 - (ANDE_PRECOMPILE_BASE_GAS + ANDE_PRECOMPILE_PER_WORD_GAS * 3) },
          output := [0x01] }), 0) :=
  ⟨⟨by decide, by decide, by decide, by decide⟩,
    run_ande_precompile_zero_value (fun _ _ _ (j : Nat) => (Except.ok none, j + 1))
      9 c6Input 4000 0 (by decide) (by decide) (by decide) (by decide)⟩

/-- C7: any call whose input length is not 96 never reaches the journal
transfer (the journal is returned untouched for every transfer function) and
fails; in a non-static context the failure is precisely the
invalid-input-length error carrying the offending length.  A static call
with a bad length fails one check earlier, with the static-context error. -/
theorem run_ande_precompile_bad_length {J : Type}
    (transfer : Address → Address → Nat → J → Except Nat (Option Nat) × J)
    (caller : Address) (input : List Nat) (is_static : Bool) (gas_limit : Nat)
    (journal : J) (hlen : input.length ≠ 96) :
    (run_ande_precompile transfer caller input is_static gas_limit journal).2 =
      journal ∧
    (∃ e, (run_ande_precompile transfer caller input is_static gas_limit journal).1 =
      Except.error e) ∧
    (is_static = false →
      run_ande_precompile transfer caller input is_static gas_limit journal =
        (Except.error (AndeError.invalidInputLength input.length), journal)) := by
  cases is_static with
  | true =>
      refine ⟨rfl, ⟨AndeError.staticContext, rfl⟩, ?_⟩
      intro h
      exact absurd h (by simp)
  | false =>
      unfold run_ande_precompile
      simp [hlen]

/-- Witness for C7 at input lengths 95 and 97. -/
theorem run_ande_precompile_bad_length_witness :
    ((List.replicate 95 0 : List Nat).length ≠ 96 ∧
      run_ande_precompile (fun _ _ _ (j : Unit) => (Except.ok none, j))
          9 (List.replicate 95 0) false 5000 () =
        (Except.error (AndeError.invalidInputLength 95), ())) ∧
    ((List.replicate 97 0 : List Nat).length ≠ 96 ∧
      run_ande_precompile (fun _ _ _ (j : Unit) => (Except.ok none, j))
          9 (List.replicate 97 0) false 5000 () =
        (Except.error (AndeError.invalidInputLength 97), ())) :=
  ⟨⟨by decide,
      by
        have h := (run_ande_precompile_bad_length
          (fun _ _ _ (j : Unit) => (Except.ok none, j)) 9 (List.replicate 95 0)
          false 5000 () (by decide)).2.2 rfl
        simpa using h⟩,
    ⟨by decide,
      by
        have h := (run_ande_precompile_bad_length
          (fun _ _ _ (j : Unit) => (Except.ok none, j)) 9 (List.replicate 97 0)
          false 5000 () (by decide)).2.2 rfl
        simpa using h⟩⟩
